import Mathlib

/-!
Verification development for the CCSDS Space Packet library.

The definitions below are a shallow embedding of the C++ sources:
  src/utils/bitmask.hpp, src/utils/obitstream.hpp, src/utils/ibitstream.hpp,
  src/utils/datafield.hpp, src/spacepacket/primaryhdr.hpp,
  src/spacepacket/spacepacket.hpp, src/spacepacket/transfer.hpp.

Machine integers are modelled as Nat with explicit masking where the C++
performs truncation.  Buffers are lists of bytes (each entry a Nat < 256 in
reachable states).  A C++ unsigned type T is represented by its bit width
(8 * sizeof(T)), passed where the templates instantiate it.
-/

namespace Ccsds

/-- bitmask<R>(onecount) from src/utils/bitmask.hpp for a register type of
rw bits: 0 when onecount = 0, otherwise (2^rw - 1) >> (rw - onecount). -/
def bitmask (rw onecount : Nat) : Nat :=
  if onecount = 0 then 0 else (2 ^ rw - 1) >>> (rw - onecount)

/-- State of OBitStream (src/utils/obitstream.hpp): an attached buffer, the
bit cursor, and the sticky bad bit.  The detached state of the default
constructor always has bad_bit = true, so it behaves exactly like any other
bad stream and is not modelled separately. -/
structure OBitStream where
  buf : List Nat
  cur_bit_offset : Nat
  bad_bit : Bool
deriving DecidableEq

/-- OBitStream::OBitStream(IBuffer&) / OBitStream::attach: cursor 0, bad
bit cleared. -/
def OBitStream.attach (buffer : List Nat) : OBitStream :=
  { buf := buffer, cur_bit_offset := 0, bad_bit := false }

/-- The while loop of OBitStream::put.  idx is the current_byte pointer
(as an index into the buffer), off is cur_bit_offset.  Each iteration the
C++ clears the byte when it is entered at a byte boundary, ORs the next
chunk of t into it, and advances.  Every iteration consumes nbBitsToAdd of
the remaining width and nbBitsToAdd is at least 1, so a fuel equal to the
initial width (as passed by put) always suffices; the fuel only makes the
recursion structural, it never cuts the loop short. -/
def putLoop (fuel : Nat) (buffer : List Nat) (idx off t width : Nat) :
    List Nat × Nat :=
  match fuel with
  | 0 => (buffer, off)
  | fuel + 1 =>
    if width = 0 then (buffer, off)
    else
      let bit_index := 8 - off % 8
      let buf1 := if off % 8 = 0 then buffer.set idx 0 else buffer
      let nbBitsToAdd := if bit_index < width then bit_index else width
      let value := (t >>> (width - nbBitsToAdd)) &&& bitmask 8 nbBitsToAdd
      let shift := bit_index - nbBitsToAdd
      let buf2 := buf1.set idx (buf1.getD idx 0 ||| value <<< shift)
      putLoop fuel buf2 (idx + 1) (off + nbBitsToAdd) t (width - nbBitsToAdd)

/-- OBitStream::put(t, width, isLittleEndian) for a value type of typeBits
bits (8 * sizeof(T)).  The C++ discards isLittleEndian ((void)isLittleEndian)
and never uses it.  The nullptr check is omitted: a stream without a buffer
always has bad_bit set, so that branch is unreachable in the model. -/
def OBitStream.put (s : OBitStream) (typeBits t width : Nat)
    (isLittleEndian : Bool) : OBitStream :=
  -- (void)isLittleEndian;
  if s.bad_bit then s
  else if width = 0 then s
  else if width > typeBits ∨ width > s.buf.length * 8 - s.cur_bit_offset then
    { s with bad_bit := true }
  else
    let r := putLoop width s.buf (s.cur_bit_offset / 8) s.cur_bit_offset t
      width
    { s with buf := r.1, cur_bit_offset := r.2 }

/-- OBitStream::getSize: dirty bytes, rounded up. -/
def OBitStream.getSize (s : OBitStream) : Nat :=
  s.cur_bit_offset / 8 + (if s.cur_bit_offset % 8 > 0 then 1 else 0)

/-- OBitStream::getWidth. -/
def OBitStream.getWidth (s : OBitStream) : Nat :=
  s.cur_bit_offset

/-- State of IBitStream (src/utils/ibitstream.hpp). -/
structure IBitStream where
  buf : List Nat
  cur_bit_offset : Nat
  bad_bit : Bool
deriving DecidableEq

/-- IBitStream::IBitStream(const IBuffer&) / IBitStream::attach. -/
def IBitStream.attach (buffer : List Nat) : IBitStream :=
  { buf := buffer, cur_bit_offset := 0, bad_bit := false }

/-- The while loop of IBitStream::get: accumulates chunks of the buffer
into t MSB-first.  The C++ accumulator has type T; since get is entered
only with width at most 8 * sizeof(T) and t initialised to 0, the
accumulated value always stays below 2 ^ width, so machine truncation
never takes effect and plain Nat arithmetic is exact.  As for putLoop, the
fuel (the initial width) only makes the recursion structural. -/
def getLoop (fuel : Nat) (buffer : List Nat) (idx off t width : Nat) :
    Nat × Nat :=
  match fuel with
  | 0 => (t, off)
  | fuel + 1 =>
    if width = 0 then (t, off)
    else
      let bit_index := 8 - off % 8
      let nbBitsToGet := if width < bit_index then width else bit_index
      let value := (buffer.getD idx 0 >>> (bit_index - nbBitsToGet)) &&&
        bitmask 8 nbBitsToGet
      let t1 := (t <<< nbBitsToGet) ||| value
      getLoop fuel buffer (idx + 1) (off + nbBitsToGet) t1
        (width - nbBitsToGet)

/-- IBitStream::get(t, width, isLittleEndian): returns the stream after the
call together with the value of the out-parameter t (unchanged on the early
returns, set to the bits read on success).  isLittleEndian is discarded by
the C++ ((void)isLittleEndian). -/
def IBitStream.get (s : IBitStream) (typeBits t width : Nat)
    (isLittleEndian : Bool) : IBitStream × Nat :=
  -- (void)isLittleEndian;
  if s.bad_bit then (s, t)
  else if width = 0 then (s, t)
  else if width > typeBits ∨ width > s.buf.length * 8 - s.cur_bit_offset then
    ({ s with bad_bit := true }, t)
  else
    let r := getLoop width s.buf (s.cur_bit_offset / 8) s.cur_bit_offset 0
      width
    ({ s with cur_bit_offset := r.2 }, r.1)


/-- Closed form of the bytes OBitStream::put writes when the cursor is
byte-aligned: the low width bits of t, MSB-first, with the final partial
byte left-aligned in its octet. -/
def bigEndianChunks (t width : Nat) : List Nat :=
  if width = 0 then []
  else if width < 8 then [(t &&& (2 ^ width - 1)) <<< (8 - width)]
  else ((t >>> (width - 8)) &&& 255) :: bigEndianChunks t (width - 8)
termination_by width
decreasing_by omega

/-! Field primitives (src/utils/datafield.hpp).  A Field<T, W> stores a raw
value on T; getValue and setValue mask with bitmask<uint64_t>(W). -/

/-- Field<T, W>::getValue(): value & bitmask<uint64_t>(WidthBits). -/
def fieldGetValue (w v : Nat) : Nat :=
  v &&& bitmask 64 w

/-- Field<T, W>::setValue(t): value = t & bitmask<uint64_t>(WidthBits). -/
def fieldSetValue (w t : Nat) : Nat :=
  t &&& bitmask 64 w

/-- Field<T, W>::operator++ : setValue(getValue() + 1), i.e. increment
modulo 2 ^ W. -/
def fieldInc (w v : Nat) : Nat :=
  fieldSetValue w (fieldGetValue w v + 1)

/-- Flag::isSet() via Field::getBit<0>: static_cast<bool>((value >> 0) & 1). -/
def flagIsSet (v : Nat) : Bool :=
  (v >>> 0) &&& 1 != 0

/-- Flag::set() via Field::setBit<0>(true): value = value | (1 << 0). -/
def flagSet (v : Nat) : Nat :=
  v ||| 1 <<< 0

/-! Primary header (src/spacepacket/primaryhdr.hpp).  The seven fields are
stored as raw Field values: version (3 bits on uint8_t), type (1 bit),
sec_hdr_flag (1 bit), apid (11 bits on uint16_t), sequence_flags (2 bits),
sequence_count (14 bits on uint16_t), length (16 bits on uint16_t). -/

structure SpPrimaryHeader where
  version : Nat
  type : Nat
  sec_hdr_flag : Nat
  apid : Nat
  sequence_flags : Nat
  sequence_count : Nat
  length : Nat
deriving DecidableEq

/-- A default-constructed SpPrimaryHeader: every Field is value 0. -/
def SpPrimaryHeader.default : SpPrimaryHeader :=
  { version := 0, type := 0, sec_hdr_flag := 0, apid := 0,
    sequence_flags := 0, sequence_count := 0, length := 0 }

/-- PacketApid::isIdle(): getValue() == 0b11111111111. -/
def apidIsIdle (v : Nat) : Bool :=
  fieldGetValue 11 v == 2047

/-- PacketLength::getLength(): getValue() + 1, returned as uint16_t. -/
def packetLengthGet (v : Nat) : Nat :=
  (fieldGetValue 16 v + 1) % 65536

/-- PacketLength::setLength(length): the size_t argument is first truncated
to the uint16_t parameter, then setValue(length - 1) stores the 16-bit
wrap of one less. -/
def packetLengthSet (n : Nat) : Nat :=
  fieldSetValue 16 ((n % 65536 + 65535) % 65536)

/-- SpPrimaryHeader::serialize: the seven fields in declaration order with
their exact widths (each Field::serialize is out.put(value, WidthBits,
isLittleEndian()); every field here is big-endian). -/
def SpPrimaryHeader.serialize (h : SpPrimaryHeader) (o : OBitStream) :
    OBitStream :=
  ((((((o.put 8 h.version 3 false).put 8 h.type 1
    false).put 8 h.sec_hdr_flag 1 false).put 16 h.apid 11
    false).put 8 h.sequence_flags 2 false).put 16 h.sequence_count 14
    false).put 16 h.length 16 false

/-- SpPrimaryHeader::deserialize on a default-constructed header: each
Field::deserialize is in.get(value, WidthBits); a get that fails leaves the
field at its default 0. -/
def SpPrimaryHeader.deserializeFrom (i : IBitStream) :
    SpPrimaryHeader × IBitStream :=
  let r1 := i.get 8 0 3 false
  let r2 := r1.1.get 8 0 1 false
  let r3 := r2.1.get 8 0 1 false
  let r4 := r3.1.get 16 0 11 false
  let r5 := r4.1.get 8 0 2 false
  let r6 := r5.1.get 16 0 14 false
  let r7 := r6.1.get 16 0 16 false
  ({ version := r1.2, type := r2.2, sec_hdr_flag := r3.2, apid := r4.2,
     sequence_flags := r5.2, sequence_count := r6.2, length := r7.2 }, r7.1)

/-- SpPrimaryHeader::isValid(): false iff the packet is idle with the
secondary header flag set (pink book 4.1.2.3.3.4). -/
def SpPrimaryHeader.isValid (h : SpPrimaryHeader) : Bool :=
  if apidIsIdle h.apid && flagIsSet h.sec_hdr_flag then false else true

/-! Spacepacket builder (src/spacepacket/spacepacket.hpp).  The secondary
header type SecHdrType is represented by its octet size (SecHdrType::getSize)
together with the list of leaf fields its serialize emits, each a triple
(typeBits, widthBits, raw value); their widths sum to 8 * size. -/

structure SpBuilder where
  primary_hdr : SpPrimaryHeader
  secSize : Nat
  sec_fields : List (Nat × Nat × Nat)
  header_bytes : List Nat
  user_data : OBitStream
deriving DecidableEq

/-- SecHdrType::serialize: its leaf fields put in order (put ignores the
per-field endianness flag, so it is not recorded). -/
def serializeSecondary (fs : List (Nat × Nat × Nat)) (o : OBitStream) :
    OBitStream :=
  fs.foldl (fun acc f => acc.put f.1 f.2.2 f.2.1 false) o

/-- SpBuilder::getBuffer(): the whole packet buffer; header_bytes is the
slice carved for the primary plus secondary header (6 + secSize bytes in
every reachable state), user_data.buf the user-data slice. -/
def SpBuilder.getBuffer (b : SpBuilder) : List Nat :=
  b.header_bytes ++ b.user_data.buf

/-- ISpacepacket::getUserDataWidth for a builder: user_data.getWidth(). -/
def SpBuilder.getUserDataWidth (b : SpBuilder) : Nat :=
  b.user_data.getWidth

/-- ISpacepacket::hasSecondaryHdr(): SecHdrType::getSize() > 0. -/
def SpBuilder.hasSecondaryHdr (b : SpBuilder) : Bool :=
  decide (b.secSize > 0)

/-- ISpacepacket::getSize(): 6 + secondary size + user-data octets rounded
up. -/
def ispGetSize (secSize userWidth : Nat) : Nat :=
  6 + secSize + userWidth / 8 + (if userWidth % 8 > 0 then 1 else 0)

/-- SpBuilder::getSize(). -/
def SpBuilder.getSize (b : SpBuilder) : Nat :=
  ispGetSize b.secSize b.getUserDataWidth

/-- ISpacepacket::isValid(), shared by SpBuilder and SpDissector: the chain
of shall-statement checks in src/spacepacket/spacepacket.hpp lines 71-111,
in source order. -/
def ispIsValid (p : SpPrimaryHeader) (secSize userWidth : Nat) : Bool :=
  if p.isValid = false then false
  else if secSize = 0 ∧ userWidth = 0 then false
  else if userWidth % 8 ≠ 0 then false
  else if ispGetSize secSize userWidth < 7 ∨
    ispGetSize secSize userWidth > 65542 then false
  else if (¬ secSize > 0 ∧ flagIsSet p.sec_hdr_flag) ∨
    (secSize > 0 ∧ ¬ flagIsSet p.sec_hdr_flag) then false
  else if apidIsIdle p.apid ∧ secSize > 0 then false
  else if packetLengthGet p.length ≠ userWidth / 8 + secSize then false
  else true

/-- SpBuilder::isValid(). -/
def SpBuilder.isValid (b : SpBuilder) : Bool :=
  ispIsValid b.primary_hdr b.secSize b.getUserDataWidth

/-- SpBuilder::finalize(): sets sec_hdr_flag if a secondary header is
present, stores the length (secondary size + user-data dirty bytes), and
serializes the primary then the secondary header through a fresh OBitStream
opened on the full buffer.  The 48 + 8 * secSize header bits land in the
first 6 + secSize bytes, which the model keeps as header_bytes. -/
def SpBuilder.finalize (b : SpBuilder) : SpBuilder :=
  let beginning := OBitStream.attach b.getBuffer
  let hdr1 := if b.hasSecondaryHdr then
    { b.primary_hdr with sec_hdr_flag := flagSet b.primary_hdr.sec_hdr_flag }
    else b.primary_hdr
  let hdr2 := { hdr1 with
    length := packetLengthSet (b.secSize + b.user_data.getSize) }
  let st := serializeSecondary b.sec_fields (hdr2.serialize beginning)
  { b with primary_hdr := hdr2,
           header_bytes := st.buf.take (6 + b.secSize),
           user_data := { b.user_data with buf := st.buf.drop (6 + b.secSize) } }

/-! Transfer service (src/spacepacket/transfer.hpp).  Listener callbacks and
the sub-layer are external collaborators; the calls the service makes to
them are recorded as an event list in invocation order. -/

inductive TransferEvent where
  | notify (listenerId : Nat) (buffer : List Nat)
  | toSubLayer (buffer : List Nat)
deriving DecidableEq

/-- A (listener, matcher) pair of the listener table; matcher_apid is the
raw PacketApid field value of the ListenerPredicate. -/
structure ListenerEntry where
  id : Nat
  matcher_apid : Nat
  matchAll : Bool
deriving DecidableEq

/-- ListenerPredicate::operator(): matchAll || apid.getValue() ==
other_apid.getValue(). -/
def matcherMatches (e : ListenerEntry) (other_apid : Nat) : Bool :=
  e.matchAll || (fieldGetValue 11 e.matcher_apid == fieldGetValue 11 other_apid)

/-- Per-APID context: rx_count, tx_count (size_t) and next_count, a raw
SequenceCount field value (14 bits), 0 by default. -/
structure ApidContext where
  rx_count : Nat
  tx_count : Nat
  next_count : Nat
deriving DecidableEq

def ApidContext.default : ApidContext :=
  { rx_count := 0, tx_count := 0, next_count := 0 }

structure Telemetry where
  rx_count : Nat
  tx_count : Nat
  rx_error_count : Nat
  tx_error_count : Nat
deriving DecidableEq

def Telemetry.default : Telemetry :=
  { rx_count := 0, tx_count := 0, rx_error_count := 0, tx_error_count := 0 }

/-- SpTransferService state: the listener table, the contexes array indexed
by APID value (0 .. 0x7FF) and the telemetry counters. -/
structure SpTransferService where
  listener_entries : List ListenerEntry
  contexes : Nat → ApidContext
  telemetry : Telemetry

/-- A freshly constructed service: no listeners, zeroed contexts and
telemetry. -/
def SpTransferService.fresh : SpTransferService :=
  { listener_entries := [],
    contexes := fun _ => ApidContext.default,
    telemetry := Telemetry.default }

/-- SpTransferService::notifyListeners: walk the table in order and call
every matching listener. -/
def notifyListeners (s : SpTransferService) (apid : Nat) (buffer : List Nat) :
    List TransferEvent :=
  s.listener_entries.filterMap fun e =>
    if matcherMatches e apid then some (.notify e.id buffer) else none

/-- SpTransferService::transmitValidBuffer: notify the matching listeners,
push to the sub-layer unless the buffer came from it, then bump the APID
context (rx_count or tx_count, and next_count via Field::operator++). -/
def transmitValidBuffer (s : SpTransferService) (apid_value : Nat)
    (buffer : List Nat) (isSubLayerBuffer : Bool) :
    SpTransferService × List TransferEvent :=
  let evs0 := notifyListeners s apid_value buffer
  let evs := if isSubLayerBuffer then evs0 else evs0 ++ [.toSubLayer buffer]
  let ctx0 := s.contexes apid_value
  let ctx1 := if isSubLayerBuffer then { ctx0 with rx_count := ctx0.rx_count + 1 }
    else { ctx0 with tx_count := ctx0.tx_count + 1 }
  let ctx2 := { ctx1 with next_count := fieldInc 14 ctx1.next_count }
  ({ s with contexes := fun a => if a = apid_value then ctx2 else s.contexes a },
   evs)

/-- The header parse receiveFromSubLayer performs: a default-constructed
SpPrimaryHeader deserialized through an IBitStream on the buffer. -/
def parsePrimary (buffer : List Nat) : SpPrimaryHeader :=
  (SpPrimaryHeader.deserializeFrom (IBitStream.attach buffer)).1

/-- SpTransferService::receiveFromSubLayer: deserialize the primary header
from the buffer, then branch on idle and on the sequence-count match. -/
def receiveFromSubLayer (s : SpTransferService) (buffer : List Nat) :
    SpTransferService × List TransferEvent :=
  let pri_hdr := parsePrimary buffer
  let apid_value := fieldGetValue 11 pri_hdr.apid
  if ¬ apidIsIdle pri_hdr.apid then
    let next_count := (s.contexes apid_value).next_count
    if fieldGetValue 14 next_count == fieldGetValue 14 pri_hdr.sequence_count
    then
      let r := transmitValidBuffer s apid_value buffer true
      ({ r.1 with telemetry :=
          { r.1.telemetry with rx_count := r.1.telemetry.rx_count + 1 } }, r.2)
    else
      ({ s with telemetry := { s.telemetry with
          rx_error_count := s.telemetry.rx_error_count + 1 } }, [])
  else
    let r := transmitValidBuffer s apid_value buffer true
    ({ r.1 with telemetry :=
        { r.1.telemetry with rx_count := r.1.telemetry.rx_count + 1 } }, r.2)

/-- SpTransferService::transmit(SpBuilder&): stamp the sequence count from
the sender's APID context, finalize, and either hand the buffer on (valid)
or only bump tx_error_count (invalid).  Returns the service, the builder as
mutated by the call, and the external calls made. -/
def transmit (s : SpTransferService) (sp : SpBuilder) :
    SpTransferService × SpBuilder × List TransferEvent :=
  let apid_value := fieldGetValue 11 sp.primary_hdr.apid
  let sp1 := { sp with primary_hdr :=
    { sp.primary_hdr with sequence_count := (s.contexes apid_value).next_count } }
  let sp2 := sp1.finalize
  if sp2.isValid then
    let r := transmitValidBuffer s apid_value sp2.getBuffer false
    ({ r.1 with telemetry :=
        { r.1.telemetry with tx_count := r.1.telemetry.tx_count + 1 } },
     sp2, r.2)
  else
    ({ s with telemetry := { s.telemetry with
        tx_error_count := s.telemetry.tx_error_count + 1 } }, sp2, [])

/-- A run of transmit calls: threads the service through the list of
builders and collects the builders as mutated by each call. -/
def transmitAll (s : SpTransferService) (bs : List SpBuilder) :
    SpTransferService × List SpBuilder :=
  match bs with
  | [] => (s, [])
  | b :: rest =>
    let r := transmit s b
    let r2 := transmitAll r.1 rest
    (r2.1, r.2.1 :: r2.2)


/-! Concrete states used in the scenario theorems.  allocateBuffer returns
uninitialised memory; zeros are used for the initial contents wherever every
byte is overwritten before it is observed. -/

/-- Scenario 1 of the spec: SpBuilder over a 7-octet buffer, empty secondary
header, apid = 0x002, sequence_flags = 0b11, and the single user-data byte
0xAB written through data(). -/
def scenario1Builder : SpBuilder :=
  { primary_hdr := { SpPrimaryHeader.default with
      apid := fieldSetValue 11 2, sequence_flags := fieldSetValue 2 3 },
    secSize := 0, sec_fields := [],
    header_bytes := List.replicate 6 0,
    user_data := (OBitStream.attach [0]).put 8 171 8 false }

/-- A builder whose packet-data field occupies 65536 octets (empty secondary
header, 65536 user bytes written): built over a 65542-octet buffer. -/
def overlongBuilder : SpBuilder :=
  { primary_hdr := SpPrimaryHeader.default, secSize := 0, sec_fields := [],
    header_bytes := List.replicate 6 0,
    user_data := { buf := List.replicate 65536 0,
                   cur_bit_offset := 524288, bad_bit := false } }

/-- A minimal valid builder: apid 5, one user byte 0xAB over a 7-octet
buffer, empty secondary header. -/
def oneByteBuilder : SpBuilder :=
  { primary_hdr := { SpPrimaryHeader.default with apid := fieldSetValue 11 5 },
    secSize := 0, sec_fields := [],
    header_bytes := List.replicate 6 0,
    user_data := (OBitStream.attach [0]).put 8 171 8 false }

/-- An invalid builder: empty secondary header and no user data (a 6-octet
buffer), rejected by the packet checks. -/
def emptyUserBuilder : SpBuilder :=
  { primary_hdr := { SpPrimaryHeader.default with apid := fieldSetValue 11 5 },
    secSize := 0, sec_fields := [],
    header_bytes := List.replicate 6 0,
    user_data := OBitStream.attach [] }

/-! Helper lemmas. -/

theorem bitmask_eq_pow (rw n : Nat) (h1 : 0 < n) (h2 : n ≤ rw) :
    bitmask rw n = 2 ^ n - 1 := by
  have hne : n ≠ 0 := by omega
  have hsplit : 2 ^ (rw - n) * 2 ^ n = 2 ^ rw := by
    rw [← pow_add]
    congr 1
    omega
  have hA : 0 < 2 ^ (rw - n) := Nat.two_pow_pos _
  have hB : 0 < 2 ^ n := Nat.two_pow_pos _
  have hle : 2 ^ (rw - n) ≤ 2 ^ rw := Nat.pow_le_pow_right (by decide) (by omega)
  have hmul : 2 ^ (rw - n) * (2 ^ n - 1) = 2 ^ rw - 2 ^ (rw - n) := by
    rw [← Nat.pred_eq_sub_one, Nat.mul_pred, hsplit]
  have key : 2 ^ rw - 1 =
      2 ^ (rw - n) * (2 ^ n - 1) + (2 ^ (rw - n) - 1) := by omega
  unfold bitmask
  rw [if_neg hne, Nat.shiftRight_eq_div_pow, key, Nat.mul_add_div hA,
    Nat.div_eq_of_lt (by omega)]
  omega

theorem fieldGetValue_eq_mod (w v : Nat) (h1 : 0 < w) (h2 : w ≤ 64) :
    fieldGetValue w v = v % 2 ^ w := by
  unfold fieldGetValue
  rw [bitmask_eq_pow 64 w h1 h2, Nat.and_pow_two_sub_one_eq_mod]

theorem fieldGetValue_lt (w v : Nat) (h1 : 0 < w) (h2 : w ≤ 64) :
    fieldGetValue w v < 2 ^ w := by
  rw [fieldGetValue_eq_mod w v h1 h2]
  exact Nat.mod_lt _ (Nat.two_pow_pos w)

theorem shiftLeft_shiftRight_self (x n : Nat) : (x <<< n) >>> n = x := by
  rw [Nat.shiftLeft_eq, Nat.shiftRight_eq_div_pow,
    Nat.mul_div_cancel _ (Nat.two_pow_pos n)]

theorem shiftLeft_or_lt_eq_add (a b n : Nat) (hb : b < 2 ^ n) :
    a <<< n ||| b = a * 2 ^ n + b := by
  rw [Nat.shiftLeft_eq, Nat.mul_comm, ← Nat.mul_add_lt_is_or hb]

theorem getD_append_self (pre : List Nat) (x : Nat) (post : List Nat) :
    (pre ++ x :: post).getD pre.length 0 = x := by
  simp [List.getD_eq_getElem?_getD, List.getElem?_append_right (Nat.le_refl _)]

theorem putLoop_zero (fuel : Nat) (buffer : List Nat) (idx off t : Nat) :
    putLoop fuel buffer idx off t 0 = (buffer, off) := by
  cases fuel <;> rfl

theorem getLoop_zero (fuel : Nat) (buffer : List Nat) (idx off t : Nat) :
    getLoop fuel buffer idx off t 0 = (t, off) := by
  cases fuel <;> rfl

theorem bigEndianChunks_zero (t : Nat) : bigEndianChunks t 0 = [] := by
  rw [bigEndianChunks]
  rfl

theorem bigEndianChunks_small (t width : Nat) (h1 : width ≠ 0) (h2 : width < 8) :
    bigEndianChunks t width = [(t &&& (2 ^ width - 1)) <<< (8 - width)] := by
  rw [bigEndianChunks, if_neg h1, if_pos h2]

theorem bigEndianChunks_big (t width : Nat) (h : 8 ≤ width) :
    bigEndianChunks t width =
      ((t >>> (width - 8)) &&& 255) :: bigEndianChunks t (width - 8) := by
  rw [bigEndianChunks, if_neg (by omega), if_neg (by omega)]

theorem putLoop_step (fuel : Nat) (buffer : List Nat) (idx off t width : Nat)
    (h0 : width ≠ 0) :
    putLoop (fuel + 1) buffer idx off t width =
      putLoop fuel
        ((if off % 8 = 0 then buffer.set idx 0 else buffer).set idx
          ((if off % 8 = 0 then buffer.set idx 0 else buffer).getD idx 0 |||
            (t >>> (width - (if 8 - off % 8 < width then 8 - off % 8 else width))
                &&& bitmask 8 (if 8 - off % 8 < width then 8 - off % 8 else width))
              <<< (8 - off % 8 -
                (if 8 - off % 8 < width then 8 - off % 8 else width))))
        (idx + 1)
        (off + (if 8 - off % 8 < width then 8 - off % 8 else width)) t
        (width - (if 8 - off % 8 < width then 8 - off % 8 else width)) := by
  rw [putLoop, if_neg h0]

theorem putLoop_aligned (width : Nat) : ∀ (fuel t : Nat) (pre rest : List Nat),
    width ≤ fuel → width ≤ 8 * rest.length →
    putLoop fuel (pre ++ rest) pre.length (8 * pre.length) t width =
      (pre ++ bigEndianChunks t width ++ rest.drop ((width + 7) / 8),
       8 * pre.length + width) := by
  induction width using Nat.strong_induction_on with
  | _ width ih =>
    intro fuel t pre rest hfuel hbound
    by_cases h0 : width = 0
    · subst h0
      rw [putLoop_zero, bigEndianChunks_zero]
      simp
    · obtain ⟨f, rfl⟩ : ∃ f, fuel = f + 1 := by
        cases fuel with
        | zero => omega
        | succ f => exact ⟨f, rfl⟩
      obtain ⟨r, rs, rfl⟩ : ∃ r rs, rest = r :: rs := by
        cases rest with
        | nil => exfalso; simp at hbound; omega
        | cons r rs => exact ⟨r, rs, rfl⟩
      have hmod : 8 * pre.length % 8 = 0 := Nat.mul_mod_right 8 _
      rw [putLoop_step _ _ _ _ _ _ h0, hmod, if_pos rfl, Nat.sub_zero,
        List.set_append_right _ _ (Nat.le_refl _), Nat.sub_self,
        List.set_cons_zero, getD_append_self,
        List.set_append_right _ _ (Nat.le_refl _), Nat.sub_self,
        List.set_cons_zero, Nat.zero_or]
      by_cases h8 : 8 < width
      · rw [if_pos h8]
        have hb8 : bitmask 8 8 = 255 := by decide
        rw [hb8, Nat.sub_self, Nat.shiftLeft_zero]
        have hstep : pre ++ (t >>> (width - 8) &&& 255) :: rs =
            (pre ++ [t >>> (width - 8) &&& 255]) ++ rs := by simp
        have hlen : pre.length + 1 =
            (pre ++ [t >>> (width - 8) &&& 255]).length := by simp
        have hoff : 8 * pre.length + 8 =
            8 * (pre ++ [t >>> (width - 8) &&& 255]).length := by
          simp
          omega
        rw [hstep, hlen, hoff,
          ih (width - 8) (by omega) f t _ rs (by omega)
            (by simp at hbound ⊢; omega)]
        rw [bigEndianChunks_big t width (by omega)]
        have hdiv : (width + 7) / 8 = (width - 8 + 7) / 8 + 1 := by omega
        rw [hdiv, List.drop_succ_cons]
        have hoff2 : 8 * (pre ++ [t >>> (width - 8) &&& 255]).length +
            (width - 8) = 8 * pre.length + width := by
          simp
          omega
        rw [hoff2]
        simp
      · rw [if_neg h8, Nat.sub_self, Nat.shiftRight_zero, putLoop_zero]
        have hdiv : (width + 7) / 8 = 1 := by omega
        rw [hdiv, List.drop_succ_cons, List.drop_zero]
        by_cases h8e : width = 8
        · subst h8e
          rw [bigEndianChunks_big t 8 (by omega), bigEndianChunks_zero]
          have hb8 : bitmask 8 8 = 255 := by decide
          rw [hb8]
          simp
        · rw [bigEndianChunks_small t width h0 (by omega),
            bitmask_eq_pow 8 width (by omega) (by omega)]
          simp

theorem getLoop_step (fuel : Nat) (buffer : List Nat) (idx off t width : Nat)
    (h0 : width ≠ 0) :
    getLoop (fuel + 1) buffer idx off t width =
      getLoop fuel buffer (idx + 1)
        (off + (if width < 8 - off % 8 then width else 8 - off % 8))
        ((t <<< (if width < 8 - off % 8 then width else 8 - off % 8)) |||
          (buffer.getD idx 0 >>>
              (8 - off % 8 - (if width < 8 - off % 8 then width else 8 - off % 8))
            &&& bitmask 8 (if width < 8 - off % 8 then width else 8 - off % 8)))
        (width - (if width < 8 - off % 8 then width else 8 - off % 8)) := by
  rw [getLoop, if_neg h0]

theorem getLoop_chunks (width : Nat) : ∀ (fuel t t0 : Nat) (pre post : List Nat),
    width ≤ fuel →
    getLoop fuel (pre ++ bigEndianChunks t width ++ post) pre.length
      (8 * pre.length) t0 width =
      (t0 <<< width ||| t % 2 ^ width, 8 * pre.length + width) := by
  induction width using Nat.strong_induction_on with
  | _ width ih =>
    intro fuel t t0 pre post hfuel
    by_cases h0 : width = 0
    · subst h0
      rw [getLoop_zero]
      rw [Nat.shiftLeft_zero, pow_zero, Nat.mod_one, Nat.or_zero, Nat.add_zero]
    · obtain ⟨f, rfl⟩ : ∃ f, fuel = f + 1 := by
        cases fuel with
        | zero => omega
        | succ f => exact ⟨f, rfl⟩
      have hmod : 8 * pre.length % 8 = 0 := Nat.mul_mod_right 8 _
      by_cases h8 : width < 8
      · rw [bigEndianChunks_small t width h0 h8,
          getLoop_step _ _ _ _ _ _ h0, hmod, Nat.sub_zero, if_pos h8,
          List.append_assoc, List.cons_append, List.nil_append,
          getD_append_self, shiftLeft_shiftRight_self,
          bitmask_eq_pow 8 width (by omega) (by omega),
          Nat.and_assoc, Nat.and_self, Nat.and_pow_two_sub_one_eq_mod,
          Nat.sub_self, getLoop_zero]
      · rw [bigEndianChunks_big t width (by omega),
          getLoop_step _ _ _ _ _ _ h0, hmod, Nat.sub_zero, if_neg h8,
          List.append_assoc, List.cons_append, getD_append_self,
          Nat.sub_self, Nat.shiftRight_zero]
        have hb8 : bitmask 8 8 = 255 := by decide
        have h255 : (255 : Nat) = 2 ^ 8 - 1 := by norm_num
        rw [hb8, Nat.and_assoc, Nat.and_self]
        have hrearr : pre ++ (t >>> (width - 8) &&& 255) ::
            (bigEndianChunks t (width - 8) ++ post) =
            (pre ++ [t >>> (width - 8) &&& 255]) ++
              bigEndianChunks t (width - 8) ++ post := by simp
        have hlen : pre.length + 1 =
            (pre ++ [t >>> (width - 8) &&& 255]).length := by simp
        have hoff : 8 * pre.length + 8 =
            8 * (pre ++ [t >>> (width - 8) &&& 255]).length := by
          simp
          omega
        rw [hrearr, hlen, hoff, ih (width - 8) (by omega) f t _ _ post
          (by omega)]
        have hoff2 : 8 * (pre ++ [t >>> (width - 8) &&& 255]).length +
            (width - 8) = 8 * pre.length + width := by
          simp
          omega
        rw [hoff2]
        have hc : t >>> (width - 8) &&& 255 = t / 2 ^ (width - 8) % 2 ^ 8 := by
          rw [h255, Nat.shiftRight_eq_div_pow, Nat.and_pow_two_sub_one_eq_mod]
        have hclt : t / 2 ^ (width - 8) % 2 ^ 8 < 2 ^ 8 :=
          Nat.mod_lt _ (Nat.two_pow_pos 8)
        have hmlt : t % 2 ^ (width - 8) < 2 ^ (width - 8) :=
          Nat.mod_lt _ (Nat.two_pow_pos _)
        have hwlt : t % 2 ^ width < 2 ^ width := Nat.mod_lt _ (Nat.two_pow_pos _)
        rw [hc, shiftLeft_or_lt_eq_add _ _ _ hclt,
          shiftLeft_or_lt_eq_add _ _ _ hmlt, shiftLeft_or_lt_eq_add _ _ _ hwlt]
        have hpow : (2 : Nat) ^ (width - 8) * 2 ^ 8 = 2 ^ width := by
          rw [← pow_add]
          congr 1
          omega
        have hmodmul : t % 2 ^ width = t % 2 ^ (width - 8) +
            2 ^ (width - 8) * (t / 2 ^ (width - 8) % 2 ^ 8) := by
          rw [← hpow, Nat.mod_mul]
        rw [hmodmul, ← hpow]
        ring_nf

theorem bigEndianChunks_length (t : Nat) : ∀ width : Nat,
    (bigEndianChunks t width).length = (width + 7) / 8 := by
  intro width
  induction width using Nat.strong_induction_on with
  | _ width ih =>
    by_cases h0 : width = 0
    · subst h0
      rw [bigEndianChunks_zero]
      rfl
    · by_cases h8 : width < 8
      · rw [bigEndianChunks_small t width h0 h8]
        simp
        omega
      · rw [bigEndianChunks_big t width (by omega)]
        simp [ih (width - 8) (by omega)]
        omega

theorem put_fresh (typeBits v W L : Nat) (h1 : 1 ≤ W) (h2 : W ≤ typeBits)
    (hWL : W ≤ 8 * L) :
    (OBitStream.attach (List.replicate L 0)).put typeBits v W false =
      { buf := bigEndianChunks v W ++ List.replicate (L - (W + 7) / 8) 0,
        cur_bit_offset := W, bad_bit := false } := by
  have halign := putLoop_aligned W W v [] (List.replicate L 0)
    (Nat.le_refl W) (by simpa using hWL)
  simp only [List.nil_append, List.length_nil, Nat.mul_zero, Nat.zero_add,
    List.drop_replicate] at halign
  unfold OBitStream.put OBitStream.attach
  simp only [List.length_replicate, Nat.sub_zero, Nat.zero_div]
  rw [if_neg Bool.false_ne_true, if_neg (by omega : ¬ W = 0),
    if_neg (by omega : ¬ (W > typeBits ∨ W > L * 8))]
  simp only [halign]

theorem get_fresh (typeBits t W P : Nat) (h1 : 1 ≤ W) (h2 : W ≤ typeBits) :
    (IBitStream.attach
        (bigEndianChunks t W ++ List.replicate P 0)).get typeBits 0 W false =
      ({ buf := bigEndianChunks t W ++ List.replicate P 0,
         cur_bit_offset := W, bad_bit := false }, t % 2 ^ W) := by
  have hchunks := getLoop_chunks W W t 0 [] (List.replicate P 0)
    (Nat.le_refl W)
  simp only [List.nil_append, List.length_nil, Nat.mul_zero, Nat.zero_add,
    Nat.zero_shiftLeft, Nat.zero_or] at hchunks
  have hlen : (bigEndianChunks t W ++ List.replicate P 0).length =
      (W + 7) / 8 + P := by
    simp [bigEndianChunks_length]
  unfold IBitStream.get IBitStream.attach
  simp only [hlen, Nat.sub_zero, Nat.zero_div]
  rw [if_neg Bool.false_ne_true, if_neg (by omega : ¬ W = 0),
    if_neg (by omega : ¬ (W > typeBits ∨ W > ((W + 7) / 8 + P) * 8))]
  simp only [hchunks]


theorem transmitAll_nil (s : SpTransferService) : transmitAll s [] = (s, []) :=
  rfl

theorem transmitAll_cons (s : SpTransferService) (b : SpBuilder)
    (bs : List SpBuilder) :
    transmitAll s (b :: bs) =
      ((transmitAll (transmit s b).1 bs).1,
       (transmit s b).2.1 :: (transmitAll (transmit s b).1 bs).2) :=
  rfl

theorem finalize_primary_sequence_count (b : SpBuilder) :
    b.finalize.primary_hdr.sequence_count = b.primary_hdr.sequence_count := by
  unfold SpBuilder.finalize
  by_cases h : b.hasSecondaryHdr <;> simp [h]

theorem transmit_sp_eq (s : SpTransferService) (b : SpBuilder) :
    (transmit s b).2.1 =
      ({ b with primary_hdr := { b.primary_hdr with sequence_count :=
        (s.contexes (fieldGetValue 11 b.primary_hdr.apid)).next_count } }).finalize := by
  simp only [transmit]
  split <;> rfl

theorem transmit_contexes_valid (s : SpTransferService) (b : SpBuilder)
    (x : Nat)
    (hv : ({ b with primary_hdr := { b.primary_hdr with sequence_count :=
        (s.contexes (fieldGetValue 11 b.primary_hdr.apid)).next_count } }).finalize.isValid
      = true) :
    (transmit s b).1.contexes x =
      if x = fieldGetValue 11 b.primary_hdr.apid then
        { rx_count :=
            (s.contexes (fieldGetValue 11 b.primary_hdr.apid)).rx_count,
          tx_count :=
            (s.contexes (fieldGetValue 11 b.primary_hdr.apid)).tx_count + 1,
          next_count := fieldInc 14
            (s.contexes (fieldGetValue 11 b.primary_hdr.apid)).next_count }
      else s.contexes x := by
  simp only [transmit, transmitValidBuffer]
  rw [if_pos hv]
  rfl

theorem transmit_invalid_eq (s : SpTransferService) (b : SpBuilder)
    (hv : ({ b with primary_hdr := { b.primary_hdr with sequence_count :=
        (s.contexes (fieldGetValue 11 b.primary_hdr.apid)).next_count } }).finalize.isValid
      = false) :
    transmit s b =
      ({ s with telemetry := { s.telemetry with
          tx_error_count := s.telemetry.tx_error_count + 1 } },
       ({ b with primary_hdr := { b.primary_hdr with sequence_count :=
          (s.contexes (fieldGetValue 11 b.primary_hdr.apid)).next_count } }).finalize,
       []) := by
  simp only [transmit]
  rw [if_neg (by rw [hv]; exact Bool.false_ne_true)]

theorem fieldInc_getValue (w v : Nat) (h1 : 0 < w) (h2 : w ≤ 64) :
    fieldGetValue w (fieldInc w v) = (fieldGetValue w v + 1) % 2 ^ w := by
  unfold fieldInc fieldSetValue fieldGetValue
  rw [bitmask_eq_pow 64 w h1 h2, Nat.and_pow_two_sub_one_eq_mod,
    Nat.and_pow_two_sub_one_eq_mod, Nat.mod_mod]

theorem ispIsValid_congr (p q : SpPrimaryHeader) (secSize userWidth : Nat)
    (h1 : p.apid = q.apid) (h2 : p.sec_hdr_flag = q.sec_hdr_flag)
    (h3 : p.length = q.length) :
    ispIsValid p secSize userWidth = ispIsValid q secSize userWidth := by
  unfold ispIsValid SpPrimaryHeader.isValid
  rw [h1, h2, h3]

theorem isValid_finalize_stamp (b : SpBuilder) (c : Nat) :
    ({ b with primary_hdr :=
      { b.primary_hdr with sequence_count := c } }).finalize.isValid =
      b.finalize.isValid := by
  cases b with
  | mk p secSize sf hb ud =>
    simp only [SpBuilder.isValid, SpBuilder.finalize,
      SpBuilder.getUserDataWidth, SpBuilder.hasSecondaryHdr,
      OBitStream.getWidth, decide_eq_true_eq]
    by_cases h : secSize > 0
    · rw [if_pos h, if_pos h]
      exact ispIsValid_congr _ _ _ _ rfl rfl rfl
    · rw [if_neg h, if_neg h]
      exact ispIsValid_congr _ _ _ _ rfl rfl rfl

/-! Claim theorems. -/

/-- C1: Bit-codec round-trip.  For every width W with 1 <= W <= 64,
W <= 8 * sizeof(V) (typeBits) and every value v, writing v with
put(v, W, false) on a fresh OBitStream over a zeroed buffer of at least
ceil(W / 8) bytes, then attaching an IBitStream to the written buffer and
calling get(out, W, false), yields out = v masked to its low W bits
(v % 2 ^ W = v & mask(W)), and neither stream has its bad flag set. -/
theorem C1_bit_codec_round_trip (typeBits W v L : Nat)
    (h1 : 1 ≤ W) (h64 : W ≤ 64) (h2 : W ≤ typeBits) (h3 : (W + 7) / 8 ≤ L) :
    ((IBitStream.attach
        ((OBitStream.attach (List.replicate L 0)).put typeBits v W
          false).buf).get typeBits 0 W false).2 = v % 2 ^ W ∧
    ((OBitStream.attach (List.replicate L 0)).put typeBits v W
        false).bad_bit = false ∧
    ((IBitStream.attach
        ((OBitStream.attach (List.replicate L 0)).put typeBits v W
          false).buf).get typeBits 0 W false).1.bad_bit = false := by
  have hWL : W ≤ 8 * L := by omega
  rw [put_fresh typeBits v W L h1 h2 hWL,
    get_fresh typeBits v W (L - (W + 7) / 8) h1 h2]
  exact ⟨rfl, rfl, rfl⟩

/-- Witness for C1: typeBits = 16, W = 13, v = 43981, L = 2. -/
theorem C1_bit_codec_round_trip_witness :
    ((IBitStream.attach
        ((OBitStream.attach (List.replicate 2 0)).put 16 43981 13
          false).buf).get 16 0 13 false).2 = 43981 % 2 ^ 13 ∧
    ((OBitStream.attach (List.replicate 2 0)).put 16 43981 13
        false).bad_bit = false ∧
    ((IBitStream.attach
        ((OBitStream.attach (List.replicate 2 0)).put 16 43981 13
          false).buf).get 16 0 13 false).1.bad_bit = false :=
  C1_bit_codec_round_trip 16 13 43981 2 (by decide) (by decide) (by decide)
    (by decide)

/-- C2 (code bug): OBitStream::put discards its isLittleEndian argument
((void)isLittleEndian), so a little-endian put is byte-for-byte identical
to a big-endian put.  At the failing input put(v = 0x0102, W = 16,
isLittleEndian = true) on a fresh byte-aligned stream the emitted bytes are
0x01 0x02 (big-endian) instead of the documented 0x02 0x01. -/
theorem C2_little_endian_ignored :
    (∀ (s : OBitStream) (typeBits t width : Nat),
      s.put typeBits t width true = s.put typeBits t width false) ∧
    ((OBitStream.attach [0, 0]).put 16 258 16 true).buf = [1, 2] :=
  ⟨fun _ _ _ _ => rfl, by decide⟩

/-- C7: sticky bad-bit error model of the writer.
(i) a put on a stream whose bad flag is set changes nothing;
(ii) a put of width 0 is a no-op;
(iii) under the cursor invariant cursor_bits <= 8 * buffer size, a put with
width > typeBits or cursor_bits + width > 8 * buffer size only sets the bad
flag, leaving buffer and cursor unchanged;
(iv) attach installs the new buffer, clears the bad flag and zeroes the
cursor, after which puts operate again. -/
theorem C7_writer_error_model :
    (∀ (s : OBitStream) (typeBits t width : Nat) (le : Bool),
      s.bad_bit = true → s.put typeBits t width le = s) ∧
    (∀ (s : OBitStream) (typeBits t : Nat) (le : Bool),
      s.put typeBits t 0 le = s) ∧
    (∀ (s : OBitStream) (typeBits t width : Nat) (le : Bool),
      s.cur_bit_offset ≤ 8 * s.buf.length →
      (width > typeBits ∨ s.cur_bit_offset + width > 8 * s.buf.length) →
      s.put typeBits t width le = { s with bad_bit := true }) ∧
    (∀ buffer : List Nat, OBitStream.attach buffer =
      { buf := buffer, cur_bit_offset := 0, bad_bit := false }) := by
  refine ⟨?_, ?_, ?_, fun _ => rfl⟩
  · intro s typeBits t width le hbad
    unfold OBitStream.put
    rw [if_pos hbad]
  · intro s typeBits t le
    unfold OBitStream.put
    by_cases hbad : s.bad_bit
    · rw [if_pos hbad]
    · rw [if_neg hbad, if_pos rfl]
  · intro s typeBits t width le hinv hover
    unfold OBitStream.put
    by_cases hbad : s.bad_bit
    · rw [if_pos hbad]
      cases s with
      | mk b o bb => simp at hbad; rw [hbad]
    · have hw0 : width ≠ 0 := by
        rcases hover with h | h
        · omega
        · omega
      rw [if_neg hbad, if_neg hw0, if_pos (by omega :
        width > typeBits ∨ width > s.buf.length * 8 - s.cur_bit_offset)]

/-- Witness for C7: part (iii) applied at a concrete overlong put, plus the
other parts at concrete streams. -/
theorem C7_writer_error_model_witness :
    OBitStream.put { buf := [0, 0], cur_bit_offset := 0, bad_bit := false }
      8 5 99 false =
      { buf := [0, 0], cur_bit_offset := 0, bad_bit := true } ∧
    OBitStream.put { buf := [7], cur_bit_offset := 3, bad_bit := true }
      8 5 4 false = { buf := [7], cur_bit_offset := 3, bad_bit := true } ∧
    OBitStream.put { buf := [7], cur_bit_offset := 3, bad_bit := false }
      8 5 0 true = { buf := [7], cur_bit_offset := 3, bad_bit := false } :=
  ⟨C7_writer_error_model.2.2.1 _ 8 5 99 false (by decide) (by decide),
   C7_writer_error_model.1 _ 8 5 4 false (by decide),
   C7_writer_error_model.2.1 _ 8 5 true⟩

/-- C3: per-APID sequence counting.  For a run of transmit calls on one
service whose builders all carry apid a and all pass validation (validation
does not depend on the stamped sequence count), the transmitted packets
carry sequence_count values k, k + 1, ..., k + N - 1 modulo 2 ^ 14, where
k is contexes[a].next_count before the first call, and afterwards
contexes[a].next_count is k + N modulo 2 ^ 14; a transmit whose packet
fails validation leaves every per-APID context (and so
contexes[a].next_count) unchanged. -/
theorem C3_sequence_counting (a : Nat) (s : SpTransferService)
    (bs : List SpBuilder)
    (hapid : ∀ b ∈ bs, fieldGetValue 11 b.primary_hdr.apid = a)
    (hval : ∀ b ∈ bs, ∀ c : Nat,
      ({ b with primary_hdr :=
        { b.primary_hdr with sequence_count := c } }).finalize.isValid = true) :
    ((∀ i (hi : i < (transmitAll s bs).2.length),
        fieldGetValue 14
            ((transmitAll s bs).2.get ⟨i, hi⟩).primary_hdr.sequence_count =
          (fieldGetValue 14 (s.contexes a).next_count + i) % 2 ^ 14) ∧
      fieldGetValue 14 ((transmitAll s bs).1.contexes a).next_count =
        (fieldGetValue 14 (s.contexes a).next_count + bs.length) % 2 ^ 14) ∧
    (∀ (s2 : SpTransferService) (b : SpBuilder),
      ({ b with primary_hdr := { b.primary_hdr with sequence_count :=
          (s2.contexes (fieldGetValue 11 b.primary_hdr.apid)).next_count } }).finalize.isValid
        = false →
      (transmit s2 b).1.contexes = s2.contexes) := by
  constructor
  · induction bs generalizing s with
    | nil =>
      rw [transmitAll_nil]
      constructor
      · intro i hi
        exact absurd hi (by simp)
      · have hk := fieldGetValue_lt 14 (s.contexes a).next_count (by omega)
          (by omega)
        simp only [List.length_nil, Nat.add_zero]
        omega
    | cons b rest ih =>
      have hab : fieldGetValue 11 b.primary_hdr.apid = a :=
        hapid b (List.mem_cons_self b rest)
      have hvb : ({ b with primary_hdr := { b.primary_hdr with
          sequence_count :=
            (s.contexes (fieldGetValue 11 b.primary_hdr.apid)).next_count } }).finalize.isValid
          = true :=
        hval b (List.mem_cons_self b rest) _
      have hseq : (transmit s b).2.1.primary_hdr.sequence_count =
          (s.contexes a).next_count := by
        rw [transmit_sp_eq, finalize_primary_sequence_count, hab]
      have hctx : ((transmit s b).1.contexes a).next_count =
          fieldInc 14 (s.contexes a).next_count := by
        rw [transmit_contexes_valid s b a hvb, hab, if_pos rfl]
      have hk := fieldGetValue_lt 14 (s.contexes a).next_count (by omega)
        (by omega)
      have hknext : fieldGetValue 14 ((transmit s b).1.contexes a).next_count =
          (fieldGetValue 14 (s.contexes a).next_count + 1) % 2 ^ 14 := by
        rw [hctx, fieldInc_getValue 14 _ (by omega) (by omega)]
      have ihr := ih (transmit s b).1
        (fun b2 hb2 => hapid b2 (List.mem_cons_of_mem b hb2))
        (fun b2 hb2 => hval b2 (List.mem_cons_of_mem b hb2))
      rw [transmitAll_cons]
      constructor
      · intro i hi
        cases i with
        | zero =>
          simp only [List.get]
          rw [hseq, Nat.add_zero, Nat.mod_eq_of_lt hk]
        | succ j =>
          have hj : j < (transmitAll (transmit s b).1 rest).2.length := by
            simpa using hi
          have := ihr.1 j hj
          simp only [List.get] at this ⊢
          rw [this, hknext, Nat.mod_add_mod]
          congr 1
          omega
      · have := ihr.2
        rw [this, hknext, Nat.mod_add_mod]
        simp only [List.length_cons]
        congr 1
        omega
  · intro s2 b hinv
    rw [transmit_invalid_eq s2 b hinv]

/-- Witness for C3: two transmits of the one-byte builder (apid 5) on a
fresh service yield sequence counts 0 and 1 and next_count 2. -/
theorem C3_sequence_counting_witness :
    ((∀ i (hi : i <
        (transmitAll SpTransferService.fresh
          [oneByteBuilder, oneByteBuilder]).2.length),
        fieldGetValue 14
            ((transmitAll SpTransferService.fresh
              [oneByteBuilder, oneByteBuilder]).2.get
                ⟨i, hi⟩).primary_hdr.sequence_count =
          (fieldGetValue 14
            (SpTransferService.fresh.contexes 5).next_count + i) % 2 ^ 14) ∧
      fieldGetValue 14
          ((transmitAll SpTransferService.fresh
            [oneByteBuilder, oneByteBuilder]).1.contexes 5).next_count =
        (fieldGetValue 14 (SpTransferService.fresh.contexes 5).next_count +
          (2 : Nat)) % 2 ^ 14) ∧
    (∀ (s2 : SpTransferService) (b : SpBuilder),
      ({ b with primary_hdr := { b.primary_hdr with sequence_count :=
          (s2.contexes (fieldGetValue 11 b.primary_hdr.apid)).next_count } }).finalize.isValid
        = false →
      (transmit s2 b).1.contexes = s2.contexes) := by
  have h := C3_sequence_counting 5 SpTransferService.fresh
    [oneByteBuilder, oneByteBuilder]
    (by intro b hb; simp at hb; rw [hb]; decide)
    (by intro b hb c; simp at hb; rw [hb, isValid_finalize_stamp]; decide)
  exact h

theorem primary_invalid_of_idle_flag (p : SpPrimaryHeader)
    (h1 : apidIsIdle p.apid = true) (h2 : flagIsSet p.sec_hdr_flag = true) :
    p.isValid = false := by
  unfold SpPrimaryHeader.isValid
  rw [h1, h2]
  rfl

/-- C8: Validity boundaries shared by builders and dissectors
(ISpacepacket::isValid over the primary header, the secondary-header size
and the user-data bit width): the packet is invalid whenever the total size
falls outside 7..65542 octets, whenever it is idle with the secondary
header flag set, and whenever a non-empty secondary header type comes with
a cleared secondary header flag. -/
theorem C8_validity_boundaries (p : SpPrimaryHeader) (secSize userWidth : Nat) :
    ((ispGetSize secSize userWidth < 7 ∨ ispGetSize secSize userWidth > 65542) →
      ispIsValid p secSize userWidth = false) ∧
    (apidIsIdle p.apid = true → flagIsSet p.sec_hdr_flag = true →
      ispIsValid p secSize userWidth = false) ∧
    (secSize > 0 → flagIsSet p.sec_hdr_flag = false →
      ispIsValid p secSize userWidth = false) := by
  refine ⟨?_, ?_, ?_⟩
  · intro hsize
    unfold ispIsValid
    split_ifs <;> simp_all
  · intro h1 h2
    unfold ispIsValid
    rw [primary_invalid_of_idle_flag p h1 h2, if_pos rfl]
  · intro hs hf
    unfold ispIsValid
    split_ifs <;> simp_all

/-- Witness for C8 at concrete inputs: a 6-octet packet (too small), an
idle header with the flag set, and a 4-octet secondary header with the
flag cleared. -/
theorem C8_validity_boundaries_witness :
    ispIsValid SpPrimaryHeader.default 0 0 = false ∧
    ispIsValid { SpPrimaryHeader.default with
      apid := 2047, sec_hdr_flag := 1 } 0 8 = false ∧
    ispIsValid SpPrimaryHeader.default 4 8 = false :=
  ⟨(C8_validity_boundaries SpPrimaryHeader.default 0 0).1 (by decide),
   (C8_validity_boundaries _ 0 8).2.1 (by decide) (by decide),
   (C8_validity_boundaries SpPrimaryHeader.default 4 8).2.2 (by decide)
     (by decide)⟩

/-- C9: end-to-end byte exactness of scenario 1: an SpBuilder with empty
secondary header over a 7-octet buffer, version 0, telemetry, apid 0x002,
sequence_flags 0b11, sequence_count 0, user data byte 0xAB; after
finalize() the buffer holds exactly 00 02 C0 00 00 00 AB. -/
theorem C9_end_to_end_bytes :
    scenario1Builder.finalize.getBuffer = [0, 2, 192, 0, 0, 0, 171] := by
  decide

/-- C4 counterexample: a builder state with s + u = 65536 (empty secondary
header, 65536 user-data bytes).  finalize() stores 65535, so
length_octets() is 0, not s + u: the claim fails as stated for every
SpBuilder state. -/
theorem C4_length_field_counterexample :
    overlongBuilder.secSize + overlongBuilder.user_data.getSize = 65536 ∧
    packetLengthGet overlongBuilder.finalize.primary_hdr.length = 0 := by
  constructor
  · decide
  · decide

/-- C4 (amended): for every SpBuilder state whose packet-data size
s + u lies in 1..65535 — in particular every valid builder state —
finalize() sets the primary length field so that length_octets() = s + u
and the stored 16-bit value is s + u - 1.  (For larger s + u the uint16
field wraps modulo 2^16, as the counterexample at s + u = 65536 shows.) -/
theorem C4_length_field_law (b : SpBuilder)
    (h1 : 1 ≤ b.secSize + b.user_data.getSize)
    (h2 : b.secSize + b.user_data.getSize ≤ 65535) :
    packetLengthGet b.finalize.primary_hdr.length =
      b.secSize + b.user_data.getSize ∧
    fieldGetValue 16 b.finalize.primary_hdr.length =
      b.secSize + b.user_data.getSize - 1 := by
  have hfin : b.finalize.primary_hdr.length =
      packetLengthSet (b.secSize + b.user_data.getSize) := rfl
  rw [hfin]
  unfold packetLengthSet packetLengthGet fieldSetValue fieldGetValue
  rw [bitmask_eq_pow 64 16 (by omega) (by omega),
    Nat.and_pow_two_sub_one_eq_mod, Nat.and_pow_two_sub_one_eq_mod]
  have hp : (2 : Nat) ^ 16 = 65536 := by norm_num
  rw [hp]
  omega

/-- Witness for C4 at the one-byte builder: s + u = 1, length_octets() = 1,
stored value 0. -/
theorem C4_length_field_law_witness :
    packetLengthGet oneByteBuilder.finalize.primary_hdr.length =
      oneByteBuilder.secSize + oneByteBuilder.user_data.getSize ∧
    fieldGetValue 16 oneByteBuilder.finalize.primary_hdr.length =
      oneByteBuilder.secSize + oneByteBuilder.user_data.getSize - 1 :=
  C4_length_field_law oneByteBuilder (by decide) (by decide)

/-- C5: inbound sequence check with atomicity on error.  For a buffer whose
parsed primary header is non-idle: on a sequence-count match the service
notifies the matching listeners, increments telemetry rx and the APID
context rx_count, and steps next_count modulo 2 ^ 14; on a mismatch it only
increments telemetry rx_err, notifies nobody and leaves every per-APID
context untouched.  Delivering sequence counts 0 then 2 for apid 0x100 to
a fresh service leaves rx_count = 1, rx_err = 1 and next_count = 1. -/
theorem C5_inbound_sequence_check (s : SpTransferService)
    (buffer : List Nat)
    (hnon : apidIsIdle (parsePrimary buffer).apid = false) :
    (fieldGetValue 14
        ((s.contexes (fieldGetValue 11 (parsePrimary buffer).apid)).next_count)
          = fieldGetValue 14 (parsePrimary buffer).sequence_count →
      receiveFromSubLayer s buffer =
        ({ listener_entries := s.listener_entries,
           contexes := fun x =>
             if x = fieldGetValue 11 (parsePrimary buffer).apid then
               { rx_count := (s.contexes
                   (fieldGetValue 11 (parsePrimary buffer).apid)).rx_count + 1,
                 tx_count := (s.contexes
                   (fieldGetValue 11 (parsePrimary buffer).apid)).tx_count,
                 next_count := fieldInc 14 (s.contexes
                   (fieldGetValue 11 (parsePrimary buffer).apid)).next_count }
             else s.contexes x,
           telemetry := { s.telemetry with
             rx_count := s.telemetry.rx_count + 1 } },
         notifyListeners s (fieldGetValue 11 (parsePrimary buffer).apid)
           buffer)) ∧
    (fieldGetValue 14
        ((s.contexes (fieldGetValue 11 (parsePrimary buffer).apid)).next_count)
          ≠ fieldGetValue 14 (parsePrimary buffer).sequence_count →
      receiveFromSubLayer s buffer =
        ({ s with telemetry := { s.telemetry with
            rx_error_count := s.telemetry.rx_error_count + 1 } }, [])) ∧
    (((receiveFromSubLayer
          (receiveFromSubLayer SpTransferService.fresh
            [1, 0, 0, 0, 0, 0]).1 [1, 0, 0, 2, 0, 0]).1.contexes
            256).rx_count = 1 ∧
      (receiveFromSubLayer
          (receiveFromSubLayer SpTransferService.fresh
            [1, 0, 0, 0, 0, 0]).1
          [1, 0, 0, 2, 0, 0]).1.telemetry.rx_error_count = 1 ∧
      fieldGetValue 14 ((receiveFromSubLayer
          (receiveFromSubLayer SpTransferService.fresh
            [1, 0, 0, 0, 0, 0]).1 [1, 0, 0, 2, 0, 0]).1.contexes
            256).next_count = 1) := by
  refine ⟨?_, ?_, by decide⟩
  · intro hm
    simp only [receiveFromSubLayer, transmitValidBuffer]
    rw [if_pos (show ¬ apidIsIdle (parsePrimary buffer).apid = true by
      rw [hnon]; exact Bool.false_ne_true)]
    rw [hm, if_pos (beq_self_eq_true _)]
    simp only [if_true]
  · intro hne
    simp only [receiveFromSubLayer, transmitValidBuffer]
    rw [if_pos (show ¬ apidIsIdle (parsePrimary buffer).apid = true by
      rw [hnon]; exact Bool.false_ne_true)]
    rw [show (fieldGetValue 14
        ((s.contexes (fieldGetValue 11 (parsePrimary buffer).apid)).next_count)
          == fieldGetValue 14 (parsePrimary buffer).sequence_count) = false
      from beq_eq_false_iff_ne.mpr hne]
    rw [if_neg Bool.false_ne_true]

/-- Witness for C5: its out-of-order scenario, obtained from the theorem at
the first scenario buffer. -/
theorem C5_inbound_sequence_check_witness :
    ((receiveFromSubLayer
        (receiveFromSubLayer SpTransferService.fresh
          [1, 0, 0, 0, 0, 0]).1 [1, 0, 0, 2, 0, 0]).1.contexes
          256).rx_count = 1 ∧
    (receiveFromSubLayer
        (receiveFromSubLayer SpTransferService.fresh
          [1, 0, 0, 0, 0, 0]).1
        [1, 0, 0, 2, 0, 0]).1.telemetry.rx_error_count = 1 ∧
    fieldGetValue 14 ((receiveFromSubLayer
        (receiveFromSubLayer SpTransferService.fresh
          [1, 0, 0, 0, 0, 0]).1 [1, 0, 0, 2, 0, 0]).1.contexes
          256).next_count = 1 :=
  (C5_inbound_sequence_check SpTransferService.fresh [1, 0, 0, 0, 0, 0]
    (by decide)).2.2

/-- C6 counterexample: one idle inbound buffer on a fresh service changes
contexes[0x7FF].next_count (to 1), so the idle path does not leave
next_count unchanged as the claim states. -/
theorem C6_idle_counterexample :
    ((receiveFromSubLayer SpTransferService.fresh
        [7, 255, 0, 0, 0, 0]).1.contexes 2047).next_count ≠
      (SpTransferService.fresh.contexes 2047).next_count := by
  decide

/-- C6 (amended): for an inbound buffer whose parsed primary header is idle,
receiveFromSubLayer notifies the matching listeners and increments telemetry
rx, contexes[0x7FF].rx_count and also contexes[0x7FF].next_count (modulo
2 ^ 14, through transmitValidBuffer); no other service state changes. -/
theorem C6_idle_inbound (s : SpTransferService) (buffer : List Nat)
    (hidle : apidIsIdle (parsePrimary buffer).apid = true) :
    receiveFromSubLayer s buffer =
      ({ listener_entries := s.listener_entries,
         contexes := fun x =>
           if x = 2047 then
             { rx_count := (s.contexes 2047).rx_count + 1,
               tx_count := (s.contexes 2047).tx_count,
               next_count := fieldInc 14 (s.contexes 2047).next_count }
           else s.contexes x,
         telemetry := { s.telemetry with
           rx_count := s.telemetry.rx_count + 1 } },
       notifyListeners s 2047 buffer) := by
  have hav : fieldGetValue 11 (parsePrimary buffer).apid = 2047 := by
    unfold apidIsIdle at hidle
    exact beq_iff_eq.mp hidle
  simp only [receiveFromSubLayer, transmitValidBuffer]
  rw [if_neg (not_not_intro hidle), hav]
  simp only [if_true]

/-- Witness for C6 at a fresh service and a 6-byte idle header buffer. -/
theorem C6_idle_inbound_witness :
    receiveFromSubLayer SpTransferService.fresh [7, 255, 0, 0, 0, 0] =
      ({ listener_entries := SpTransferService.fresh.listener_entries,
         contexes := fun x =>
           if x = 2047 then
             { rx_count := (SpTransferService.fresh.contexes 2047).rx_count + 1,
               tx_count := (SpTransferService.fresh.contexes 2047).tx_count,
               next_count := fieldInc 14
                 (SpTransferService.fresh.contexes 2047).next_count }
           else SpTransferService.fresh.contexes x,
         telemetry := { SpTransferService.fresh.telemetry with
           rx_count := SpTransferService.fresh.telemetry.rx_count + 1 } },
       notifyListeners SpTransferService.fresh 2047 [7, 255, 0, 0, 0, 0]) :=
  C6_idle_inbound SpTransferService.fresh [7, 255, 0, 0, 0, 0] (by decide)

/-- C10 (implicit): a transmit whose stamped-and-finalized packet fails the
validity check notifies no listener, pushes nothing to the sub-layer,
leaves every per-APID context unchanged and only increments telemetry
tx_error_count - yet the builder passed in has already been mutated: its
sequence_count was set to contexes[apid].next_count and finalize() ran,
setting its secondary-header flag and length fields and serializing the
headers into its buffer. -/
theorem C10_dropped_transmit_mutates (s : SpTransferService) (sp : SpBuilder)
    (hinv : ({ sp with primary_hdr := { sp.primary_hdr with sequence_count :=
        (s.contexes (fieldGetValue 11 sp.primary_hdr.apid)).next_count } }).finalize.isValid
      = false) :
    transmit s sp =
      ({ s with telemetry := { s.telemetry with
          tx_error_count := s.telemetry.tx_error_count + 1 } },
       ({ sp with primary_hdr := { sp.primary_hdr with sequence_count :=
          (s.contexes (fieldGetValue 11 sp.primary_hdr.apid)).next_count } }).finalize,
       []) ∧
    (transmit s sp).2.1.primary_hdr.sequence_count =
      (s.contexes (fieldGetValue 11 sp.primary_hdr.apid)).next_count := by
  constructor
  · exact transmit_invalid_eq s sp hinv
  · rw [transmit_sp_eq, finalize_primary_sequence_count]

/-- Witness for C10 at a fresh service and the builder with no user data
(invalid: neither secondary header nor user data). -/
theorem C10_dropped_transmit_mutates_witness :
    transmit SpTransferService.fresh emptyUserBuilder =
      ({ SpTransferService.fresh with
          telemetry := { SpTransferService.fresh.telemetry with
            tx_error_count :=
              SpTransferService.fresh.telemetry.tx_error_count + 1 } },
       ({ emptyUserBuilder with primary_hdr :=
          { emptyUserBuilder.primary_hdr with sequence_count :=
            (SpTransferService.fresh.contexes
              (fieldGetValue 11
                emptyUserBuilder.primary_hdr.apid)).next_count } }).finalize,
       []) ∧
    (transmit SpTransferService.fresh emptyUserBuilder).2.1.primary_hdr.sequence_count =
      (SpTransferService.fresh.contexes
        (fieldGetValue 11 emptyUserBuilder.primary_hdr.apid)).next_count :=
  C10_dropped_transmit_mutates SpTransferService.fresh emptyUserBuilder
    (by decide)

end Ccsds
